import Mathlib

/-!
Shallow embedding of the parameter-synchronisation orchestrator
(src/orchestrator.rs of the xtouch-wing repository).

Modelling choices:
* `f32` payloads are carried opaquely as their raw bit pattern (`F32 := Nat`);
  no claim computes with float arithmetic.
* The observable effects of a call (provider `write`s, console `set_value` /
  `request_value` invocations, error logs, waiter notification) are recorded
  as an explicit trace of `Event`s; provider and console fallibility is
  injected through an `Env` of success predicates.
* The cache (`HashMap<String, Value>`) is an association list with one entry
  per key; `cacheInsert` replaces any previous entry for the key.
* The timeout-bounded wait of `wait_for_value` is modelled by a list of cache
  snapshots `future`, one per `cache_notifier` wake-up occurring before the
  deadline; an empty/ exhausted list means the deadline elapsed first.
-/

namespace XTouchWing

/-- Raw bit pattern of a 32-bit float payload; treated opaquely. -/
abbrev F32 := Nat

/-- Value types stored in the parameter cache (src/orchestrator.rs, `enum Value`). -/
inductive Value where
  | Int (i : Int)
  | Float (x : F32)
  | Str (s : String)
deriving DecidableEq

/-- The variant tag of a `Value`; one tag per constructor of the source enum. -/
inductive ValueTag where
  | int
  | float
  | str
deriving DecidableEq, Fintype

/-- Tag of a `Value`. -/
def Value.tag : Value → ValueTag
  | .Int _ => .int
  | .Float _ => .float
  | .Str _ => .str

/-- Structural equality on `Value`, mirroring the derived `PartialEq`. -/
def Value.beq : Value → Value → Bool
  | .Int a, .Int b => a == b
  | .Float a, .Float b => a == b
  | .Str a, .Str b => a == b
  | _, _ => false

/-- By-value clone of a `Value`, mirroring the derived `Clone`. -/
def Value.clone (v : Value) : Value := v

/-- Transcribed from the spec's data model (spec.md section 3), which describes
`Value` as the tagged union of Int, Float, Str and Blob: the set of variant
tags the spec prescribes. Written for comparison with `ValueTag`, the tags of
the source's `Value`. -/
inductive SpecValueTag where
  | int
  | float
  | str
  | blob
deriving DecidableEq, Fintype

/-- The parameter cache: one entry per path, newest first. -/
abbrev Cache := List (String × Value)

/-- `HashMap::insert`: record `(addr, v)`, replacing any previous entry for `addr`. -/
def cacheInsert (c : Cache) (addr : String) (v : Value) : Cache :=
  (addr, v) :: c.filter (fun p => p.1 != addr)

/-- Environment of registered providers and failure injection: the number of
registered providers and, for each external call the orchestrator can make,
whether that call succeeds. -/
structure Env where
  numProviders : Nat
  providerWriteOk : Nat → String → Value → Bool
  consoleWriteOk : String → Value → Bool
  consoleRequestOk : String → Bool
  providerMetersOk : Nat → List (List F32) → Bool

/-- Observable effects of orchestrator operations. `providerWrite idx` is an
invocation of `providers[idx].write`; `consoleWrite` is `console.set_value`;
`consoleRequest` is `console.request_value`; the `Failed` variants are the
error-log entries emitted when the corresponding call returned an error. -/
inductive Event where
  | consoleWrite (addr : String) (v : Value)
  | consoleWriteFailed (addr : String)
  | consoleRequest (addr : String)
  | consoleRequestFailed (addr : String)
  | providerWrite (idx : Nat) (addr : String) (v : Value)
  | providerWriteFailed (idx : Nat) (addr : String)
  | unknownProvider (id : Nat)
  | providerWriteMeters (idx : Nat) (values : List (List F32))
  | providerWriteMetersFailed (idx : Nat)
  | notifyWaiters
deriving DecidableEq

/-- An event that is an invocation of a provider's or the console's write. -/
def Event.isWrite : Event → Bool
  | .consoleWrite _ _ => true
  | .providerWrite _ _ _ => true
  | _ => false

/-- An event that is an invocation of the console's `request_value`. -/
def Event.isConsoleRequest : Event → Bool
  | .consoleRequest _ => true
  | _ => false

/-- Mutable state owned by the orchestrator: the parameter cache. -/
structure OrchState where
  cache : Cache
deriving DecidableEq

namespace Orchestrator

/-- `Orchestrator::value_exists_in_cache`. -/
def value_exists_in_cache (st : OrchState) (addr : String) : Bool :=
  (st.cache.lookup addr).isSome

/-- `Orchestrator::get_cached_value`. -/
def get_cached_value (st : OrchState) (addr : String) : Option Value :=
  st.cache.lookup addr

/-- `Orchestrator::request_value_from_console`: invoke the console adapter's
`request_value`, logging (not propagating) a failure. -/
def request_value_from_console (env : Env) (addr : String) : List Event :=
  if env.consoleRequestOk addr then [Event.consoleRequest addr]
  else [Event.consoleRequest addr, Event.consoleRequestFailed addr]

/-- Invocation of `console.set_value` with failure logged, as it appears in
`notify_provider_by_id` and in `Interface::set_value`. -/
def consoleSetEvents (env : Env) (addr : String) (v : Value) : List Event :=
  if env.consoleWriteOk addr v then [Event.consoleWrite addr v]
  else [Event.consoleWrite addr v, Event.consoleWriteFailed addr]

/-- Invocation of `providers[idx].write` with failure logged. -/
def providerWriteEvents (env : Env) (idx : Nat) (addr : String) (v : Value) : List Event :=
  if env.providerWriteOk idx addr v then [Event.providerWrite idx addr v]
  else [Event.providerWrite idx addr v, Event.providerWriteFailed idx addr]

/-- `Orchestrator::notify_provider_by_id`: id 0 is the console; otherwise
`providers.get(id - 1)`, and an out-of-range id is logged and ignored. -/
def notify_provider_by_id (env : Env) (st : OrchState) (provider_id : Nat)
    (addr : String) (v : Value) : OrchState × List Event :=
  if provider_id == 0 then
    (st, consoleSetEvents env addr v)
  else if provider_id - 1 < env.numProviders then
    (st, providerWriteEvents env (provider_id - 1) addr v)
  else
    (st, [Event.unknownProvider provider_id])

/-- The re-check loop of `wait_for_value`: examine the cache snapshot at each
successive wake-up of `cache_notifier`; `none` when the snapshots before the
deadline are exhausted without the path appearing. -/
def wait_loop (addr : String) : List Cache → Option Value
  | [] => none
  | c :: rest =>
    match c.lookup addr with
    | some v => some v
    | none => wait_loop addr rest

/-- `Orchestrator::wait_for_value`: serve from the cache unless a refresh is
forced; otherwise request the value from the console, then wait. -/
def wait_for_value (env : Env) (st : OrchState) (addr : String) (force_refresh : Bool)
    (future : List Cache) : Option Value × List Event :=
  if !force_refresh && (st.cache.lookup addr).isSome then
    (st.cache.lookup addr, [])
  else
    (wait_loop addr future, request_value_from_console env addr)

end Orchestrator

namespace Interface

open Orchestrator

/-- `Interface::ensure_value`. -/
def ensure_value (env : Env) (st : OrchState) (addr : String) (force_refresh : Bool) :
    List Event :=
  if !force_refresh && value_exists_in_cache st addr then []
  else request_value_from_console env addr

/-- `Interface::get_value`: `wait_for_value` bounded by the timeout; an
exhausted wait yields the timeout error. -/
def get_value (env : Env) (st : OrchState) (addr : String) (force_refresh : Bool)
    (future : List Cache) : Except String Value × List Event :=
  match wait_for_value env st addr force_refresh future with
  | (some v, evs) => (Except.ok v, evs)
  | (none, evs) => (Except.error ("Timed out waiting for value " ++ addr), evs)

/-- `Interface::request_value_notification` for the interface with id `selfId`.
The result is `none` exactly when the `unwrap` of the cached value would
panic. -/
def request_value_notification (env : Env) (st : OrchState) (selfId : Nat)
    (addr : String) (force_refresh : Bool) : Option (List Event) :=
  if force_refresh || !value_exists_in_cache st addr then
    some (request_value_from_console env addr)
  else
    match get_cached_value st addr with
    | some v => some (notify_provider_by_id env st selfId addr v).2
    | none => none

/-- `Interface::request_value_notification_checked`. The result is `none`
exactly when the `unwrap` of the cached value would panic. -/
def request_value_notification_checked (env : Env) (st : OrchState) (selfId : Nat)
    (addr : String) (force_refresh : Bool) (future : List Cache) :
    Option (Except String Unit × List Event) :=
  if force_refresh || !value_exists_in_cache st addr then
    match wait_for_value env st addr force_refresh future with
    | (some _, evs) => some (Except.ok (), evs)
    | (none, evs) => some (Except.error ("Timed out waiting for value " ++ addr), evs)
  else
    match get_cached_value st addr with
    | some v => some (Except.ok (), (notify_provider_by_id env st selfId addr v).2)
    | none => none

/-- The provider loop of `Interface::set_value`: write to every registered
provider except the caller (`id + 1 != self.id`), logging failures. -/
def fanout (env : Env) (selfId : Nat) (addr : String) (v : Value) : List Event :=
  (List.range env.numProviders).flatMap fun id =>
    if id + 1 != selfId then providerWriteEvents env id addr v else []

/-- `Interface::set_value`: insert into the cache, wake the waiters, write to
the console when the caller is not the console, then fan out to every other
provider. -/
def set_value (env : Env) (selfId : Nat) (st : OrchState) (addr : String) (v : Value) :
    OrchState × List Event :=
  (⟨cacheInsert st.cache addr v⟩,
    Event.notifyWaiters ::
      ((if selfId != 0 then consoleSetEvents env addr v else []) ++ fanout env selfId addr v))

/-- `Interface::set_meters`: deliver the batch to every registered provider,
logging failures; the cache is untouched. -/
def set_meters (env : Env) (st : OrchState) (values : List (List F32)) :
    OrchState × List Event :=
  (st, (List.range env.numProviders).flatMap fun id =>
    if env.providerMetersOk id values then [Event.providerWriteMeters id values]
    else [Event.providerWriteMeters id values, Event.providerWriteMetersFailed id])

end Interface

/-! Concrete environments and states used to instantiate the theorems below. -/

/-- A registry of two providers (interface ids 1 and 2) plus the console (id 0),
with every external call succeeding. -/
def env0 : Env where
  numProviders := 2
  providerWriteOk := fun _ _ _ => true
  consoleWriteOk := fun _ _ => true
  consoleRequestOk := fun _ => true
  providerMetersOk := fun _ _ => true

/-- Two providers, where provider index 1 fails every write and meter write,
and the console fails every `set_value`. -/
def envFail : Env where
  numProviders := 2
  providerWriteOk := fun i _ _ => i != 1
  consoleWriteOk := fun _ _ => false
  consoleRequestOk := fun _ => true
  providerMetersOk := fun i _ => i == 0

/-- A cache holding one parameter. -/
def st0 : OrchState := ⟨[("/ch/1/fdr", Value.Int 5)]⟩

/-- The empty cache. -/
def stE : OrchState := ⟨[]⟩

/-- A concrete meter batch. -/
def values0 : List (List F32) := [[1, 2], [3]]

/-! Helper lemmas about the cache and the event traces. -/

open Orchestrator Interface

theorem lookup_filter_ne (c : Cache) {k addr : String} (h : k ≠ addr) :
    (c.filter (fun p => p.1 != addr)).lookup k = c.lookup k := by
  induction c with
  | nil => rfl
  | cons p rest ih =>
    obtain ⟨k1, v1⟩ := p
    by_cases h1 : k1 = addr
    · subst h1
      have hb : (k == k1) = false := by simpa using h
      simp [List.filter_cons, List.lookup, hb, ih]
    · have hb : (k1 != addr) = true := by simpa using h1
      cases hkk : (k == k1) <;> simp [List.filter_cons, List.lookup, hb, hkk, ih]

theorem lookup_cacheInsert (c : Cache) (addr k : String) (v : Value) :
    (cacheInsert c addr v).lookup k = if k = addr then some v else c.lookup k := by
  by_cases h : k = addr
  · subst h
    simp [cacheInsert, List.lookup]
  · have hb : (k == addr) = false := by simpa using h
    simp [cacheInsert, List.lookup, h, hb, lookup_filter_ne _ h]

theorem mem_providerWriteEvents (env : Env) (idx : Nat) (addr : String) (v : Value) :
    Event.providerWrite idx addr v ∈ providerWriteEvents env idx addr v := by
  unfold providerWriteEvents
  split <;> simp

theorem mem_failed_providerWriteEvents (env : Env) (idx : Nat) (addr : String) (v : Value)
    (h : env.providerWriteOk idx addr v = false) :
    Event.providerWriteFailed idx addr ∈ providerWriteEvents env idx addr v := by
  simp [providerWriteEvents, h]

theorem eq_of_mem_providerWriteEvents {env : Env} {idx : Nat} {addr : String} {v : Value}
    {e : Event} (h : e ∈ providerWriteEvents env idx addr v) :
    e = Event.providerWrite idx addr v ∨ e = Event.providerWriteFailed idx addr := by
  unfold providerWriteEvents at h
  split at h
  · simp at h
    exact Or.inl h
  · simpa using h

theorem mem_consoleSetEvents (env : Env) (addr : String) (v : Value) :
    Event.consoleWrite addr v ∈ consoleSetEvents env addr v := by
  unfold consoleSetEvents
  split <;> simp

theorem mem_failed_consoleSetEvents (env : Env) (addr : String) (v : Value)
    (h : env.consoleWriteOk addr v = false) :
    Event.consoleWriteFailed addr ∈ consoleSetEvents env addr v := by
  simp [consoleSetEvents, h]

theorem eq_of_mem_consoleSetEvents {env : Env} {addr : String} {v : Value}
    {e : Event} (h : e ∈ consoleSetEvents env addr v) :
    e = Event.consoleWrite addr v ∨ e = Event.consoleWriteFailed addr := by
  unfold consoleSetEvents at h
  split at h
  · simp at h
    exact Or.inl h
  · simpa using h

theorem mem_fanout {env : Env} {selfId : Nat} {addr : String} {v : Value} {e : Event} :
    e ∈ fanout env selfId addr v ↔
      ∃ i, i < env.numProviders ∧ i + 1 ≠ selfId ∧ e ∈ providerWriteEvents env i addr v := by
  simp only [fanout, List.mem_flatMap, List.mem_range]
  constructor
  · rintro ⟨i, hi, he⟩
    by_cases h : i + 1 = selfId
    · simp [h] at he
    · exact ⟨i, hi, h, by simpa [h] using he⟩
  · rintro ⟨i, hi, h, he⟩
    exact ⟨i, hi, by simpa [h] using he⟩

theorem get_value_cached (env : Env) (st : OrchState) (addr : String) (v : Value)
    (future : List Cache) (h : st.cache.lookup addr = some v) :
    Interface.get_value env st addr false future = (Except.ok v, []) := by
  simp [Interface.get_value, wait_for_value, h]

theorem wait_for_value_uncached (env : Env) (st : OrchState) (addr : String)
    (fr : Bool) (future : List Cache) (h : st.cache.lookup addr = none) :
    wait_for_value env st addr fr future =
      (wait_loop addr future, request_value_from_console env addr) := by
  simp [wait_for_value, h]

theorem head_request_value_from_console (env : Env) (addr : String) :
    (request_value_from_console env addr).head? = some (Event.consoleRequest addr) := by
  unfold request_value_from_console
  split <;> rfl

theorem mem_request_value_from_console (env : Env) (addr : String) :
    Event.consoleRequest addr ∈ request_value_from_console env addr := by
  unfold request_value_from_console
  split <;> simp

/-- Claim C3: after `set_value(K, v1)` then `set_value(K, v2)` complete in that
order (from any two originating interfaces), the cache entry for K is v2 —
each insert replaces the previous entry, with no conflict detection or
versioning — and a subsequent `get_value(K, force_refresh=false)` returns v2. -/
theorem set_value_last_write_wins (env : Env) (id1 id2 : Nat) (st : OrchState)
    (addr : String) (v1 v2 : Value) (future : List Cache) :
    (Interface.set_value env id2 (Interface.set_value env id1 st addr v1).1 addr
        v2).1.cache.lookup addr = some v2 ∧
    Interface.get_value env
        (Interface.set_value env id2 (Interface.set_value env id1 st addr v1).1 addr v2).1
        addr false future = (Except.ok v2, []) := by
  have hc : (Interface.set_value env id2 (Interface.set_value env id1 st addr v1).1 addr
      v2).1.cache = cacheInsert (Interface.set_value env id1 st addr v1).1.cache addr v2 := rfl
  have hl : (Interface.set_value env id2 (Interface.set_value env id1 st addr v1).1 addr
      v2).1.cache.lookup addr = some v2 := by
    rw [hc, lookup_cacheInsert]
    simp
  exact ⟨hl, get_value_cached _ _ _ _ _ hl⟩

/-- Claim C4: for a path already in the cache, `get_value(path, false)` returns
the cached value immediately, with an empty effect trace — in particular the
console adapter's `request_value` is not invoked. -/
theorem get_value_cache_hit (env : Env) (st : OrchState) (addr : String) (v : Value)
    (future : List Cache) (h : st.cache.lookup addr = some v) :
    Interface.get_value env st addr false future = (Except.ok v, []) ∧
    ∀ a, Event.consoleRequest a ∉ (Interface.get_value env st addr false future).2 := by
  have he := get_value_cached env st addr v future h
  refine ⟨he, fun a => ?_⟩
  rw [he]
  simp

/-- Witness for C4 at a concrete cached path. -/
theorem get_value_cache_hit_witness :
    st0.cache.lookup "/ch/1/fdr" = some (Value.Int 5) ∧
    Interface.get_value env0 st0 "/ch/1/fdr" false [] = (Except.ok (Value.Int 5), []) :=
  ⟨rfl, (get_value_cache_hit env0 st0 "/ch/1/fdr" (Value.Int 5) [] rfl).1⟩

/-- Claim C5: for a path not satisfied from the cache, `get_value` issues the
console request before starting to wait (the request heads the effect trace);
if the deadline elapses with the path still absent the call returns the
timeout error while the already-issued request remains in the trace (not
cancelled); and a reply that arrives afterwards via `set_value` populates the
cache, so a later `get_value` returns it. -/
theorem get_value_timeout_request_not_cancelled (env : Env) (st : OrchState) (addr : String)
    (fr : Bool) (future : List Cache) (h : st.cache.lookup addr = none) :
    (Interface.get_value env st addr fr future).2.head? = some (Event.consoleRequest addr) ∧
    (wait_loop addr future = none →
      (Interface.get_value env st addr fr future).1 =
        Except.error ("Timed out waiting for value " ++ addr) ∧
      Event.consoleRequest addr ∈ (Interface.get_value env st addr fr future).2) ∧
    (∀ senderId w future2,
      Interface.get_value env (Interface.set_value env senderId st addr w).1 addr false
        future2 = (Except.ok w, [])) := by
  have hw := wait_for_value_uncached env st addr fr future h
  refine ⟨?_, ?_, ?_⟩
  · unfold Interface.get_value
    rw [hw]
    cases hwl : wait_loop addr future
    · simpa using head_request_value_from_console env addr
    · simpa using head_request_value_from_console env addr
  · intro hwl
    unfold Interface.get_value
    rw [hw, hwl]
    exact ⟨rfl, by simpa using mem_request_value_from_console env addr⟩
  · intro senderId w future2
    apply get_value_cached
    have hc : (Interface.set_value env senderId st addr w).1.cache =
        cacheInsert st.cache addr w := rfl
    rw [hc, lookup_cacheInsert]
    simp

/-- Witness for C5 on the empty cache: the timeout error is returned, the
console request is in the trace, and a late reply is visible to the next
reader. -/
theorem get_value_timeout_request_not_cancelled_witness :
    stE.cache.lookup "/x" = none ∧
    (Interface.get_value env0 stE "/x" false []).1 =
      Except.error ("Timed out waiting for value " ++ "/x") ∧
    Event.consoleRequest "/x" ∈ (Interface.get_value env0 stE "/x" false []).2 ∧
    Interface.get_value env0 (Interface.set_value env0 0 stE "/x" (Value.Int 9)).1 "/x"
      false [] = (Except.ok (Value.Int 9), []) := by
  have h := get_value_timeout_request_not_cancelled env0 stE "/x" false [] rfl
  exact ⟨rfl, (h.2.1 rfl).1, (h.2.1 rfl).2, h.2.2 0 (Value.Int 9) []⟩

/-- Claim C1: `set_value` through the interface of provider P (console id 0 or
registered id i+1) invokes `write(K, v)` on every registered provider whose
identity differs from P's, invokes the console write exactly when P is not the
console, and never invokes a write on P itself. -/
theorem set_value_loop_avoidance (env : Env) (selfId : Nat) (st : OrchState)
    (addr : String) (v : Value) (hP : selfId ≤ env.numProviders) :
    (∀ j, j < env.numProviders → j + 1 ≠ selfId →
      Event.providerWrite j addr v ∈ (Interface.set_value env selfId st addr v).2) ∧
    (selfId ≠ 0 →
      Event.consoleWrite addr v ∈ (Interface.set_value env selfId st addr v).2) ∧
    (selfId = 0 → ∀ a w,
      Event.consoleWrite a w ∉ (Interface.set_value env selfId st addr v).2) ∧
    (∀ j a w, j + 1 = selfId →
      Event.providerWrite j a w ∉ (Interface.set_value env selfId st addr v).2) := by
  have htr : (Interface.set_value env selfId st addr v).2 =
      Event.notifyWaiters ::
        ((if selfId != 0 then consoleSetEvents env addr v else []) ++
          fanout env selfId addr v) := rfl
  refine ⟨?_, ?_, ?_, ?_⟩
  · intro j hj hne
    rw [htr]
    exact List.mem_cons_of_mem _ (List.mem_append_right _
      (mem_fanout.mpr ⟨j, hj, hne, mem_providerWriteEvents env j addr v⟩))
  · intro h0
    have hb : (selfId != 0) = true := by simpa using h0
    rw [htr, if_pos hb]
    exact List.mem_cons_of_mem _ (List.mem_append_left _ (mem_consoleSetEvents env addr v))
  · intro h0 a w hmem
    subst h0
    rw [htr, if_neg (by simp)] at hmem
    rcases List.mem_cons.mp hmem with h | h
    · exact Event.noConfusion h
    rcases List.mem_append.mp h with h | h
    · exact absurd h (List.not_mem_nil _)
    · rcases mem_fanout.mp h with ⟨i, _, _, he⟩
      rcases eq_of_mem_providerWriteEvents he with h' | h' <;> exact Event.noConfusion h'
  · intro j a w hj hmem
    rw [htr] at hmem
    rcases List.mem_cons.mp hmem with h | h
    · exact Event.noConfusion h
    rcases List.mem_append.mp h with h | h
    · by_cases hs : (selfId != 0) = true
      · rw [if_pos hs] at h
        rcases eq_of_mem_consoleSetEvents h with h' | h' <;> exact Event.noConfusion h'
      · rw [if_neg hs] at h
        exact absurd h (List.not_mem_nil _)
    · rcases mem_fanout.mp h with ⟨i, _, hne, he⟩
      rcases eq_of_mem_providerWriteEvents he with h' | h'
      · injection h' with h1 _ _
        exact hne (h1 ▸ hj)
      · exact Event.noConfusion h'

/-- Witness for C1: with two providers, provider id 1 setting a value writes to
provider index 1 (id 2) and the console, but never to itself (index 0). -/
theorem set_value_loop_avoidance_witness :
    (1 : Nat) ≤ env0.numProviders ∧
    Event.providerWrite 1 "/k" (Value.Int 7) ∈
      (Interface.set_value env0 1 st0 "/k" (Value.Int 7)).2 ∧
    Event.consoleWrite "/k" (Value.Int 7) ∈
      (Interface.set_value env0 1 st0 "/k" (Value.Int 7)).2 ∧
    Event.providerWrite 0 "/k" (Value.Int 7) ∉
      (Interface.set_value env0 1 st0 "/k" (Value.Int 7)).2 := by
  have h := set_value_loop_avoidance env0 1 st0 "/k" (Value.Int 7) (by decide)
  exact ⟨by decide, h.1 1 (by decide) (by decide), h.2.1 (by decide),
    h.2.2.2 0 "/k" (Value.Int 7) rfl⟩

/-- Counterexample to claim C2: with two providers and a cached path, provider
id 1 calling `request_value_notification(K, false)` produces a single write —
invoked on the requesting provider itself (index 0), not on its peers
(provider index 1 receives nothing and the console receives nothing). -/
theorem request_value_notification_peers_counterexample :
    Interface.request_value_notification env0 st0 1 "/ch/1/fdr" false =
      some [Event.providerWrite 0 "/ch/1/fdr" (Value.Int 5)] ∧
    Event.providerWrite 1 "/ch/1/fdr" (Value.Int 5) ∉
      [Event.providerWrite 0 "/ch/1/fdr" (Value.Int 5)] ∧
    Event.consoleWrite "/ch/1/fdr" (Value.Int 5) ∉
      [Event.providerWrite 0 "/ch/1/fdr" (Value.Int 5)] :=
  ⟨rfl, by decide, by decide⟩

/-- Claim C2 (amended): `request_value_notification(K, force_refresh=false)`
when K is cached results in exactly one write carrying the cached value,
invoked on the requesting provider itself (on the console adapter when the
requester is the console), and no `request_value` call is issued to the
console adapter. -/
theorem request_value_notification_cached_self_notify (env : Env) (st : OrchState)
    (selfId : Nat) (addr : String) (v : Value)
    (hc : st.cache.lookup addr = some v) (hP : selfId ≤ env.numProviders) :
    (Interface.request_value_notification env st selfId addr false).map
        (List.filter Event.isWrite) =
      some [if selfId = 0 then Event.consoleWrite addr v
            else Event.providerWrite (selfId - 1) addr v] ∧
    (Interface.request_value_notification env st selfId addr false).map
        (List.filter Event.isConsoleRequest) = some [] := by
  have hex : value_exists_in_cache st addr = true := by
    simp [value_exists_in_cache, hc]
  have hnot : Interface.request_value_notification env st selfId addr false =
      some (notify_provider_by_id env st selfId addr v).2 := by
    unfold Interface.request_value_notification
    simp [hex, get_cached_value, hc]
  rcases Nat.eq_zero_or_pos selfId with h0 | hpos
  · subst h0
    have hn : (notify_provider_by_id env st 0 addr v).2 = consoleSetEvents env addr v := rfl
    rw [hnot, hn]
    constructor
    · simp only [Option.map_some', if_pos rfl]
      congr 1
      unfold consoleSetEvents
      split <;> simp [List.filter, Event.isWrite]
    · simp only [Option.map_some']
      congr 1
      unfold consoleSetEvents
      split <;> simp [List.filter, Event.isConsoleRequest]
  · have h0 : selfId ≠ 0 := Nat.pos_iff_ne_zero.mp hpos
    have hb : (selfId == 0) = false := by simpa using h0
    have hlt : selfId - 1 < env.numProviders := by omega
    have hn : (notify_provider_by_id env st selfId addr v).2 =
        providerWriteEvents env (selfId - 1) addr v := by
      simp [notify_provider_by_id, hb, hlt]
    rw [hnot, hn, if_neg h0]
    constructor
    · simp only [Option.map_some']
      congr 1
      unfold providerWriteEvents
      split <;> simp [List.filter, Event.isWrite]
    · simp only [Option.map_some']
      congr 1
      unfold providerWriteEvents
      split <;> simp [List.filter, Event.isConsoleRequest]

/-- Witness for C2 (amended) at a concrete cached path and requester id 1. -/
theorem request_value_notification_cached_self_notify_witness :
    st0.cache.lookup "/ch/1/fdr" = some (Value.Int 5) ∧ (1 : Nat) ≤ env0.numProviders ∧
    (Interface.request_value_notification env0 st0 1 "/ch/1/fdr" false).map
        (List.filter Event.isWrite) =
      some [Event.providerWrite 0 "/ch/1/fdr" (Value.Int 5)] ∧
    (Interface.request_value_notification env0 st0 1 "/ch/1/fdr" false).map
        (List.filter Event.isConsoleRequest) = some [] := by
  have h := request_value_notification_cached_self_notify env0 st0 1 "/ch/1/fdr"
    (Value.Int 5) rfl (by decide)
  exact ⟨rfl, by decide, by simpa using h.1, h.2⟩

/-- Claim C6: `set_value` has no failure return — for any combination of
individual provider or console write failures, the cache update happens, each
failure is logged individually, and every non-originating provider is still
written to. -/
theorem set_value_best_effort (env : Env) (selfId : Nat) (st : OrchState)
    (addr : String) (v : Value) :
    (Interface.set_value env selfId st addr v).1.cache = cacheInsert st.cache addr v ∧
    (∀ j, j < env.numProviders → j + 1 ≠ selfId →
      Event.providerWrite j addr v ∈ (Interface.set_value env selfId st addr v).2 ∧
      (env.providerWriteOk j addr v = false →
        Event.providerWriteFailed j addr ∈ (Interface.set_value env selfId st addr v).2)) ∧
    (selfId ≠ 0 → env.consoleWriteOk addr v = false →
      Event.consoleWriteFailed addr ∈ (Interface.set_value env selfId st addr v).2) := by
  have htr : (Interface.set_value env selfId st addr v).2 =
      Event.notifyWaiters ::
        ((if selfId != 0 then consoleSetEvents env addr v else []) ++
          fanout env selfId addr v) := rfl
  refine ⟨rfl, ?_, ?_⟩
  · intro j hj hne
    constructor
    · rw [htr]
      exact List.mem_cons_of_mem _ (List.mem_append_right _
        (mem_fanout.mpr ⟨j, hj, hne, mem_providerWriteEvents env j addr v⟩))
    · intro hfail
      rw [htr]
      exact List.mem_cons_of_mem _ (List.mem_append_right _
        (mem_fanout.mpr ⟨j, hj, hne, mem_failed_providerWriteEvents env j addr v hfail⟩))
  · intro h0 hfail
    have hb : (selfId != 0) = true := by simpa using h0
    rw [htr, if_pos hb]
    exact List.mem_cons_of_mem _
      (List.mem_append_left _ (mem_failed_consoleSetEvents env addr v hfail))

/-- Witness for C6: with provider index 1 and the console failing, the failing
provider is still written to and logged, and a console failure is logged. -/
theorem set_value_best_effort_witness :
    envFail.providerWriteOk 1 "/k" (Value.Int 7) = false ∧
    Event.providerWrite 1 "/k" (Value.Int 7) ∈
      (Interface.set_value envFail 0 st0 "/k" (Value.Int 7)).2 ∧
    Event.providerWriteFailed 1 "/k" ∈
      (Interface.set_value envFail 0 st0 "/k" (Value.Int 7)).2 ∧
    Event.consoleWriteFailed "/k" ∈
      (Interface.set_value envFail 2 st0 "/k" (Value.Int 7)).2 := by
  have h := set_value_best_effort envFail 0 st0 "/k" (Value.Int 7)
  have h2 := set_value_best_effort envFail 2 st0 "/k" (Value.Int 7)
  exact ⟨rfl, (h.2.1 1 (by decide) (by decide)).1, (h.2.1 1 (by decide) (by decide)).2 rfl,
    h2.2.2 (by decide) rfl⟩

/-- Counterexample to claim C7: the source `Value` has no Blob variant — its
variant tags are not in bijection with the four tags the spec prescribes. -/
theorem value_blob_variant_counterexample : ¬ Nonempty (ValueTag ≃ SpecValueTag) := by
  rintro ⟨e⟩
  have hc : Fintype.card ValueTag = Fintype.card SpecValueTag := Fintype.card_congr e
  have h3 : Fintype.card ValueTag = 3 := rfl
  have h4 : Fintype.card SpecValueTag = 4 := rfl
  omega

/-- Claim C7 (amended): `Value` is a tagged union with exactly the variants
Int(i32), Float(f32) and Str(String) — there is no Blob variant; values are
immutable once constructed and are compared and cloned by value. -/
theorem value_variants_amended :
    (∀ v : Value, (∃ i, v = Value.Int i) ∨ (∃ x, v = Value.Float x) ∨
      (∃ s, v = Value.Str s)) ∧
    Fintype.card ValueTag = 3 ∧
    (∀ v w : Value, Value.beq v w = true ↔ v = w) ∧
    (∀ v : Value, Value.clone v = v) := by
  refine ⟨?_, rfl, ?_, fun v => rfl⟩
  · intro v
    cases v with
    | Int i => exact Or.inl ⟨i, rfl⟩
    | Float x => exact Or.inr (Or.inl ⟨x, rfl⟩)
    | Str s => exact Or.inr (Or.inr ⟨s, rfl⟩)
  · intro v w
    cases v <;> cases w <;> simp [Value.beq]

/-- Witness for C7 (amended) at concrete values. -/
theorem value_variants_amended_witness :
    (Value.beq (Value.Int 5) (Value.Int 5) = true ↔ Value.Int 5 = Value.Int 5) ∧
    Value.clone (Value.Int 5) = Value.Int 5 :=
  ⟨value_variants_amended.2.2.1 (Value.Int 5) (Value.Int 5),
    value_variants_amended.2.2.2 (Value.Int 5)⟩

/-- Claim C8: notifying a provider identity outside the known range (neither 0
nor an index into the provider list shifted by one) only logs the fault: no
provider or console write occurs, there is no panic, and the state is
unchanged. -/
theorem notify_unknown_provider_noop (env : Env) (st : OrchState) (pid : Nat)
    (addr : String) (v : Value) (h0 : pid ≠ 0) (hn : env.numProviders ≤ pid - 1) :
    notify_provider_by_id env st pid addr v = (st, [Event.unknownProvider pid]) := by
  have hb : (pid == 0) = false := by simpa using h0
  have hlt : ¬ (pid - 1 < env.numProviders) := Nat.not_lt.mpr hn
  simp [notify_provider_by_id, hb, hlt]

/-- Witness for C8 at a concrete out-of-range identity. -/
theorem notify_unknown_provider_noop_witness :
    (5 : Nat) ≠ 0 ∧ env0.numProviders ≤ 5 - 1 ∧
    notify_provider_by_id env0 st0 5 "/x" (Value.Int 1) =
      (st0, [Event.unknownProvider 5]) :=
  ⟨by decide, by decide,
    notify_unknown_provider_noop env0 st0 5 "/x" (Value.Int 1) (by decide) (by decide)⟩

/-- Claim C9: `set_meters` invokes `write_meter_values` with the batch on every
registered provider, leaves the cache untouched (meter data is never inserted
into it), and an individual failure is logged without preventing delivery to
the remaining providers. -/
theorem set_meters_broadcast (env : Env) (st : OrchState) (values : List (List F32)) :
    (Interface.set_meters env st values).1 = st ∧
    (∀ j, j < env.numProviders →
      Event.providerWriteMeters j values ∈ (Interface.set_meters env st values).2 ∧
      (env.providerMetersOk j values = false →
        Event.providerWriteMetersFailed j ∈ (Interface.set_meters env st values).2)) := by
  refine ⟨rfl, ?_⟩
  intro j hj
  constructor
  · simp only [Interface.set_meters, List.mem_flatMap, List.mem_range]
    refine ⟨j, hj, ?_⟩
    split <;> simp
  · intro hfail
    simp only [Interface.set_meters, List.mem_flatMap, List.mem_range]
    exact ⟨j, hj, by simp [hfail]⟩

/-- Witness for C9: provider index 1 fails its meter write, is logged, and
still receives the invocation; the state is unchanged. -/
theorem set_meters_broadcast_witness :
    (1 : Nat) < envFail.numProviders ∧ envFail.providerMetersOk 1 values0 = false ∧
    (Interface.set_meters envFail st0 values0).1 = st0 ∧
    Event.providerWriteMeters 1 values0 ∈ (Interface.set_meters envFail st0 values0).2 ∧
    Event.providerWriteMetersFailed 1 ∈ (Interface.set_meters envFail st0 values0).2 := by
  have h := set_meters_broadcast envFail st0 values0
  exact ⟨by decide, rfl, h.1, (h.2 1 (by decide)).1, (h.2 1 (by decide)).2 rfl⟩

/-- Claim C10: no core operation removes a cache entry — `set_value` preserves
every present key and `set_meters` leaves the state untouched — so whenever
`value_exists_in_cache` holds, `get_cached_value` is `some`, and the unwrap of
the cached value inside `request_value_notification` and its checked variant
cannot panic (the modelled result is never `none`). -/
theorem cache_monotone_unwrap_safe :
    (∀ env selfId st addr v k, ((st : OrchState).cache.lookup k).isSome = true →
      ((Interface.set_value env selfId st addr v).1.cache.lookup k).isSome = true) ∧
    (∀ env st values, (Interface.set_meters env st values).1 = st) ∧
    (∀ st addr, value_exists_in_cache st addr = true →
      (get_cached_value st addr).isSome = true) ∧
    (∀ env st selfId addr fr,
      (Interface.request_value_notification env st selfId addr fr).isSome = true) ∧
    (∀ env st selfId addr fr future,
      (Interface.request_value_notification_checked env st selfId addr fr
        future).isSome = true) := by
  refine ⟨?_, fun env st values => rfl, fun st addr h => h, ?_, ?_⟩
  · intro env selfId st addr v k hk
    have hc : (Interface.set_value env selfId st addr v).1.cache =
        cacheInsert st.cache addr v := rfl
    rw [hc, lookup_cacheInsert]
    by_cases h : k = addr
    · simp [h]
    · simpa [h] using hk
  · intro env st selfId addr fr
    unfold Interface.request_value_notification
    by_cases hcond : (fr || !value_exists_in_cache st addr) = true
    · rw [if_pos hcond]
      rfl
    · rw [if_neg hcond]
      have hve : value_exists_in_cache st addr = true := by
        cases hve : value_exists_in_cache st addr
        · exact absurd (by simp [hve]) hcond
        · rfl
      have hlk : (st.cache.lookup addr).isSome = true := hve
      obtain ⟨v, hv⟩ := Option.isSome_iff_exists.mp hlk
      have hg : get_cached_value st addr = some v := hv
      simp [hg]
  · intro env st selfId addr fr future
    unfold Interface.request_value_notification_checked
    by_cases hcond : (fr || !value_exists_in_cache st addr) = true
    · rw [if_pos hcond]
      rcases hwv : wait_for_value env st addr fr future with ⟨ov, evs⟩
      cases ov <;> rfl
    · rw [if_neg hcond]
      have hve : value_exists_in_cache st addr = true := by
        cases hve : value_exists_in_cache st addr
        · exact absurd (by simp [hve]) hcond
        · rfl
      have hlk : (st.cache.lookup addr).isSome = true := hve
      obtain ⟨v, hv⟩ := Option.isSome_iff_exists.mp hlk
      have hg : get_cached_value st addr = some v := hv
      simp [hg]

/-- Witness for C10: a present key survives an unrelated `set_value`, and a
cached-path notification produces a result (no panic). -/
theorem cache_monotone_unwrap_safe_witness :
    (st0.cache.lookup "/ch/1/fdr").isSome = true ∧
    ((Interface.set_value env0 1 st0 "/k" (Value.Int 7)).1.cache.lookup
      "/ch/1/fdr").isSome = true ∧
    (Interface.request_value_notification env0 st0 1 "/ch/1/fdr" false).isSome = true :=
  ⟨rfl, cache_monotone_unwrap_safe.1 env0 1 st0 "/k" (Value.Int 7) "/ch/1/fdr" rfl,
    cache_monotone_unwrap_safe.2.2.2.1 env0 st0 1 "/ch/1/fdr" false⟩

end XTouchWing
